import Mathlib

/-!
Verification development for the `vec-cell` crate (`src/lib.rs`): a vector
with per-element runtime borrow tracking.

The Rust code is shallowly embedded as pure Lean functions.  `VecCell<T>`
holds its elements in an `UnsafeCell<Vec<T>>` and its borrow table in a
`Vec<Cell<BorrowState>>`; both are modelled as plain lists, and the interior
mutability of the `&self` methods (`get`, `get_mut`, `try_iter`) is made
explicit by threading the container state: each such method returns the pair
of its Rust return value and the (possibly updated) container.
-/

namespace VecCellSpec

/-- `enum BorrowState { None, Immutable, Mutable }` (lib.rs 15-20). -/
inductive BorrowState
  | none
  | immutable
  | mutable
  deriving DecidableEq

/-- `enum Error { OutOfBounds, Aliasing }` (lib.rs 34-38). -/
inductive Error
  | outOfBounds
  | aliasing
  deriving DecidableEq

/-- `struct VecCell<T>` (lib.rs 7-13): element storage, parallel borrow-state
table, and the two global borrow counters. -/
structure VecCell (T : Type) where
  elems : List T
  borrows : List BorrowState
  immutable_borrow_count : Nat
  mutable_borrow_count : Nat
  deriving DecidableEq

/-- `struct Ref<'a, T>(UnsafeRef<'a, T>)` (lib.rs 29): a shared guard records
the index it was granted for; the back-reference to the container is the
explicitly threaded state. -/
structure Ref where
  index : Nat
  deriving DecidableEq

/-- `struct RefMut<'a, T>(UnsafeRef<'a, T>)` (lib.rs 32). -/
structure RefMut where
  index : Nat
  deriving DecidableEq

namespace VecCell

variable {T : Type}

/-- `VecCell::new` = `Default::default()` (lib.rs 43-45, 116-125). -/
def new : VecCell T :=
  ⟨[], [], 0, 0⟩

/-- `VecCell::with_capacity` (lib.rs 47-54).  Reserved capacity has no
observable effect on the list model; the constructed state is empty. -/
def with_capacity (_capacity : Nat) : VecCell T :=
  ⟨[], [], 0, 0⟩

/-- `impl FromIterator for VecCell` (lib.rs 127-138): collects the elements
and builds a borrow table of the same length filled with `None`. -/
def from_iter (l : List T) : VecCell T :=
  ⟨l, List.replicate l.length BorrowState.none, 0, 0⟩

/-- `VecCell::len` (lib.rs 56-60): length of the element storage. -/
def len (vc : VecCell T) : Nat :=
  vc.elems.length

/-- `VecCell::is_empty` (lib.rs 62-64). -/
def is_empty (vc : VecCell T) : Bool :=
  vc.len == 0

/-- `VecCell::push` (lib.rs 66-70): appends the value and a `None`
borrow-state entry. -/
def push (vc : VecCell T) (v : T) : VecCell T :=
  { vc with
      elems := vc.elems ++ [v]
      borrows := vc.borrows ++ [BorrowState.none] }

/-- `VecCell::pop` (lib.rs 72-76): pops the last borrow-state entry and the
last element, returning the latter. -/
def pop (vc : VecCell T) : Option T × VecCell T :=
  (vc.elems.getLast?,
   { vc with
       elems := vc.elems.dropLast
       borrows := vc.borrows.dropLast })

/-- `VecCell::get` (lib.rs 78-87): bounds check against the borrow table;
`Aliasing` when the slot is `Mutable`; otherwise set the slot to `Immutable`,
bump the immutable counter and hand out a shared guard.  Both error paths
return before any state is touched, so they carry `vc` unchanged. -/
def get (vc : VecCell T) (index : Nat) : Except Error Ref × VecCell T :=
  match vc.borrows[index]? with
  | Option.none => (Except.error Error.outOfBounds, vc)
  | Option.some b =>
    if b = BorrowState.mutable then
      (Except.error Error.aliasing, vc)
    else
      (Except.ok ⟨index⟩,
       { vc with
           borrows := vc.borrows.set index BorrowState.immutable
           immutable_borrow_count := vc.immutable_borrow_count + 1 })

/-- `VecCell::get_mut` (lib.rs 89-98): bounds check against the borrow table;
`Aliasing` when the slot is anything but `None`; otherwise set the slot to
`Mutable`, bump the mutable counter and hand out an exclusive guard. -/
def get_mut (vc : VecCell T) (index : Nat) : Except Error RefMut × VecCell T :=
  match vc.borrows[index]? with
  | Option.none => (Except.error Error.outOfBounds, vc)
  | Option.some b =>
    if b ≠ BorrowState.none then
      (Except.error Error.aliasing, vc)
    else
      (Except.ok ⟨index⟩,
       { vc with
           borrows := vc.borrows.set index BorrowState.mutable
           mutable_borrow_count := vc.mutable_borrow_count + 1 })

/-- `VecCell::try_iter` (lib.rs 100-109): `Aliasing` when the mutable counter
is nonzero, otherwise an iterator over the elements in stored order.  The
method only reads cells; the threaded state is returned untouched on both
paths. -/
def try_iter (vc : VecCell T) : Except Error (List T) × VecCell T :=
  if vc.mutable_borrow_count ≠ 0 then
    (Except.error Error.aliasing, vc)
  else
    (Except.ok vc.elems, vc)

/-- The structural invariant kept by the container: the borrow table is
index-aligned with the element storage. -/
def wf (vc : VecCell T) : Prop :=
  vc.borrows.length = vc.elems.length

instance (vc : VecCell T) : Decidable vc.wf := by
  unfold wf; infer_instance

end VecCell

/-- `impl Drop for Ref` (lib.rs 192-202): decrement the global immutable
counter; only when the new count is zero reset this guard's slot to `None`.
(`usize` underflow cannot occur for a guard obtained from `get`, which had
incremented the counter; `Nat` subtraction agrees on all such states.) -/
def Ref.drop {T : Type} (r : Ref) (vc : VecCell T) : VecCell T :=
  let new_count := vc.immutable_borrow_count - 1
  if new_count = 0 then
    { vc with
        immutable_borrow_count := new_count
        borrows := vc.borrows.set r.index BorrowState.none }
  else
    { vc with immutable_borrow_count := new_count }

/-- `impl Drop for RefMut` (lib.rs 228-236): decrement the global mutable
counter and unconditionally reset this guard's slot to `None`. -/
def RefMut.drop {T : Type} (rm : RefMut) (vc : VecCell T) : VecCell T :=
  { vc with
      mutable_borrow_count := vc.mutable_borrow_count - 1
      borrows := vc.borrows.set rm.index BorrowState.none }

/-- `impl Deref for Ref` via `UnsafeRef::deref` (lib.rs 163-168, 181-190):
unchecked read of the element at the recorded index.  The unchecked access is
modelled as `List.getElem?`; the `Option.none` case is the out-of-bounds
branch the source declares unreachable. -/
def Ref.deref {T : Type} (r : Ref) (vc : VecCell T) : Option T :=
  vc.elems[r.index]?

/-- `impl Deref for RefMut` via `UnsafeRef::deref` (lib.rs 163-168,
210-218). -/
def RefMut.deref {T : Type} (rm : RefMut) (vc : VecCell T) : Option T :=
  vc.elems[rm.index]?

/-- Reading through `impl DerefMut for RefMut` via `UnsafeRef::deref_mut`
(lib.rs 173-178, 220-226): the mutable reference targets the same element. -/
def RefMut.deref_mut {T : Type} (rm : RefMut) (vc : VecCell T) : Option T :=
  vc.elems[rm.index]?

/-- Writing through the mutable reference returned by
`RefMut::deref_mut`: stores the value at the recorded index. -/
def RefMut.write {T : Type} (rm : RefMut) (vc : VecCell T) (v : T) : VecCell T :=
  { vc with elems := vc.elems.set rm.index v }

/-- C3: `try_iter` fails with `Aliasing` if and only if the exclusive-borrow
counter is nonzero (an exclusive guard is outstanding somewhere); otherwise it
succeeds and yields exactly the current elements in stored order. -/
theorem C3_try_iter_iff {T : Type} (vc : VecCell T) :
    ((vc.try_iter).1 = Except.error Error.aliasing ↔ vc.mutable_borrow_count ≠ 0)
    ∧ (vc.mutable_borrow_count = 0 → (vc.try_iter).1 = Except.ok vc.elems) := by
  unfold VecCell.try_iter
  by_cases h : vc.mutable_borrow_count = 0 <;> simp [h]

theorem C3_witness :
    ((VecCell.from_iter [1, 2] : VecCell Nat).try_iter).1
      = Except.ok (VecCell.from_iter [1, 2] : VecCell Nat).elems :=
  (C3_try_iter_iff (VecCell.from_iter [1, 2])).2 rfl

/-- C4: for an in-bounds index whose slot holds state `b`, `get_mut` fails
with `Aliasing` exactly when `b` is anything other than `None`; when `b` is
`None` it sets the slot to `Mutable`, increments the mutable-borrow counter by
one, and returns an exclusive guard recording that index. -/
theorem C4_get_mut_spec {T : Type} (vc : VecCell T) (i : Nat) (b : BorrowState)
    (hb : vc.borrows[i]? = some b) :
    ((vc.get_mut i).1 = Except.error Error.aliasing ↔ b ≠ BorrowState.none)
    ∧ (b = BorrowState.none →
        vc.get_mut i =
          (Except.ok ⟨i⟩,
           { vc with
               borrows := vc.borrows.set i BorrowState.mutable
               mutable_borrow_count := vc.mutable_borrow_count + 1 })) := by
  unfold VecCell.get_mut
  rw [hb]
  by_cases h : b = BorrowState.none
  · subst h; simp
  · simp [h]

theorem C4_witness :
    (VecCell.from_iter [7] : VecCell Nat).get_mut 0
      = (Except.ok ⟨0⟩, (⟨[7], [BorrowState.mutable], 0, 1⟩ : VecCell Nat)) :=
  (C4_get_mut_spec (VecCell.from_iter [7] : VecCell Nat) 0 BorrowState.none (by decide)).2 rfl

/-- C5: for an in-bounds index whose slot holds state `b`, `get` fails with
`Aliasing` exactly when `b` is `Mutable`; otherwise it sets the slot to
`Immutable`, increments the immutable-borrow counter by one, and returns a
shared guard recording that index. -/
theorem C5_get_spec {T : Type} (vc : VecCell T) (i : Nat) (b : BorrowState)
    (hb : vc.borrows[i]? = some b) :
    ((vc.get i).1 = Except.error Error.aliasing ↔ b = BorrowState.mutable)
    ∧ (b ≠ BorrowState.mutable →
        vc.get i =
          (Except.ok ⟨i⟩,
           { vc with
               borrows := vc.borrows.set i BorrowState.immutable
               immutable_borrow_count := vc.immutable_borrow_count + 1 })) := by
  unfold VecCell.get
  rw [hb]
  by_cases h : b = BorrowState.mutable
  · subst h; simp
  · simp [h]

theorem C5_witness :
    (VecCell.from_iter [7, 8] : VecCell Nat).get 1
      = (Except.ok ⟨1⟩, (⟨[7, 8], [BorrowState.none, BorrowState.immutable], 1, 0⟩ : VecCell Nat)) :=
  (C5_get_spec (VecCell.from_iter [7, 8] : VecCell Nat) 1 BorrowState.none (by decide)).2 (by decide)

/-- C6: on a container whose borrow table is aligned with its elements, `get`
and `get_mut` fail with `OutOfBounds` for every index at or beyond the length,
and never return `OutOfBounds` for an index below the length. -/
theorem C6_bounds {T : Type} (vc : VecCell T) (i : Nat) (hwf : vc.wf) :
    (vc.len ≤ i →
      (vc.get i).1 = Except.error Error.outOfBounds
      ∧ (vc.get_mut i).1 = Except.error Error.outOfBounds)
    ∧ (i < vc.len →
      (vc.get i).1 ≠ Except.error Error.outOfBounds
      ∧ (vc.get_mut i).1 ≠ Except.error Error.outOfBounds) := by
  unfold VecCell.wf at hwf
  unfold VecCell.len
  constructor
  · intro h
    have hnone : vc.borrows[i]? = Option.none := List.getElem?_eq_none (by omega)
    constructor
    · unfold VecCell.get; rw [hnone]
    · unfold VecCell.get_mut; rw [hnone]
  · intro h
    have hlt : i < vc.borrows.length := by omega
    have hsome : vc.borrows[i]? = some vc.borrows[i] := List.getElem?_eq_getElem hlt
    constructor
    · unfold VecCell.get
      rw [hsome]
      by_cases hb : vc.borrows[i] = BorrowState.mutable <;> simp [hb]
    · unfold VecCell.get_mut
      rw [hsome]
      by_cases hb : vc.borrows[i] = BorrowState.none <;> simp [hb]

theorem C6_witness :
    ((VecCell.from_iter [1, 2] : VecCell Nat).get 5).1 = Except.error Error.outOfBounds
    ∧ ((VecCell.from_iter [1, 2] : VecCell Nat).get_mut 5).1 = Except.error Error.outOfBounds :=
  (C6_bounds (VecCell.from_iter [1, 2] : VecCell Nat) 5 (by decide)).1 (by decide)

/-- C7: whenever `get`, `get_mut` or `try_iter` returns an error, the
container state it hands back is exactly the input state — no partial
mutation of elements, borrow table or counters occurs on a failure path. -/
theorem C7_error_preserves_state {T : Type} (vc : VecCell T) (i : Nat) (e : Error) :
    ((vc.get i).1 = Except.error e → (vc.get i).2 = vc)
    ∧ ((vc.get_mut i).1 = Except.error e → (vc.get_mut i).2 = vc)
    ∧ ((vc.try_iter).1 = Except.error e → (vc.try_iter).2 = vc) := by
  refine ⟨?_, ?_, ?_⟩
  · unfold VecCell.get
    cases hbi : vc.borrows[i]? with
    | none => simp
    | some b => by_cases hb : b = BorrowState.mutable <;> simp [hb]
  · unfold VecCell.get_mut
    cases hbi : vc.borrows[i]? with
    | none => simp
    | some b => by_cases hb : b = BorrowState.none <;> simp [hb]
  · unfold VecCell.try_iter
    by_cases h : vc.mutable_borrow_count = 0 <;> simp [h]

theorem C7_witness :
    ((VecCell.from_iter [1] : VecCell Nat).get 3).2 = VecCell.from_iter [1] :=
  (C7_error_preserves_state (VecCell.from_iter [1] : VecCell Nat) 3 Error.outOfBounds).1 rfl

/-- C8: the element storage and the borrow table have equal lengths after
every constructor (`new`, `with_capacity`, `from_iter`) and this alignment is
preserved by every operation: `push` appends an element together with a
`None` borrow entry, `pop` removes the last entry of both, and `get`,
`get_mut`, guard drops and `try_iter` keep both lengths unchanged. -/
theorem C8_parallel_lengths {T : Type} (v : T) (l : List T) (cap : Nat)
    (vc : VecCell T) (hwf : vc.wf) (i : Nat) (r : Ref) (rm : RefMut) :
    (VecCell.new : VecCell T).wf
    ∧ (VecCell.with_capacity cap : VecCell T).wf
    ∧ (VecCell.from_iter l).wf
    ∧ (vc.push v).elems = vc.elems ++ [v]
    ∧ (vc.push v).borrows = vc.borrows ++ [BorrowState.none]
    ∧ (vc.push v).wf
    ∧ (vc.pop).2.elems = vc.elems.dropLast
    ∧ (vc.pop).2.borrows = vc.borrows.dropLast
    ∧ (vc.pop).2.wf
    ∧ ((vc.get i).2).wf
    ∧ ((vc.get_mut i).2).wf
    ∧ (Ref.drop r vc).wf
    ∧ (RefMut.drop rm vc).wf
    ∧ ((vc.try_iter).2).wf := by
  unfold VecCell.wf at hwf
  refine ⟨rfl, rfl, ?_, rfl, rfl, ?_, rfl, rfl, ?_, ?_, ?_, ?_, ?_, ?_⟩
  · simp [VecCell.from_iter, VecCell.wf]
  · simp [VecCell.push, VecCell.wf, hwf]
  · simp [VecCell.pop, VecCell.wf, List.length_dropLast, hwf]
  · unfold VecCell.get
    cases vc.borrows[i]? with
    | none => exact hwf
    | some b =>
      by_cases hb : b = BorrowState.mutable
      · simp only [hb, if_pos rfl]; exact hwf
      · simp only [if_neg hb]
        simp [VecCell.wf, List.length_set, hwf]
  · unfold VecCell.get_mut
    cases vc.borrows[i]? with
    | none => exact hwf
    | some b =>
      by_cases hb : b = BorrowState.none
      · simp only [hb]
        simp [VecCell.wf, List.length_set, hwf]
      · simp only [if_pos hb]; exact hwf
  · unfold Ref.drop
    by_cases h : vc.immutable_borrow_count - 1 = 0 <;>
      simp [h, VecCell.wf, List.length_set, hwf]
  · simp [RefMut.drop, VecCell.wf, List.length_set, hwf]
  · unfold VecCell.try_iter
    by_cases h : vc.mutable_borrow_count = 0 <;> simp [h] <;> exact hwf

theorem C8_witness :
    ((VecCell.from_iter [1, 2] : VecCell Nat).push 3).wf :=
  (C8_parallel_lengths 3 [9] 0 (VecCell.from_iter [1, 2] : VecCell Nat)
    (by decide) 0 ⟨0⟩ ⟨0⟩).2.2.2.2.2.1

/-- C9: on an aligned container, any guard handed out by `get` or `get_mut`
records an index strictly below the element count of the updated container,
dereferencing it (immutably, and for exclusive guards also mutably) reads the
element stored at that index, and the out-of-bounds (`Option.none`) branch of
the unchecked access is unreachable. -/
theorem C9_deref_in_bounds {T : Type} (vc : VecCell T) (i : Nat) (hwf : vc.wf) :
    (∀ r vc', vc.get i = (Except.ok r, vc') →
        r.index < vc'.elems.length
        ∧ Ref.deref r vc' = vc'.elems[r.index]?
        ∧ ∃ x, Ref.deref r vc' = some x)
    ∧ (∀ rm vc', vc.get_mut i = (Except.ok rm, vc') →
        rm.index < vc'.elems.length
        ∧ RefMut.deref rm vc' = vc'.elems[rm.index]?
        ∧ RefMut.deref_mut rm vc' = vc'.elems[rm.index]?
        ∧ ∃ x, RefMut.deref rm vc' = some x ∧ RefMut.deref_mut rm vc' = some x) := by
  unfold VecCell.wf at hwf
  constructor
  · intro r vc' h
    unfold VecCell.get at h
    cases hbi : vc.borrows[i]? with
    | none => rw [hbi] at h; simp at h
    | some b =>
      rw [hbi] at h
      by_cases hb : b = BorrowState.mutable
      · simp [hb] at h
      · simp only [if_neg hb, Prod.mk.injEq, Except.ok.injEq] at h
        obtain ⟨hr, hv⟩ := h
        subst hv
        have hib : i < vc.borrows.length := (List.getElem?_eq_some.1 hbi).1
        have hie : i < vc.elems.length := by omega
        refine ⟨?_, rfl, ?_⟩
        · rw [← hr]; exact hie
        · rw [← hr]
          exact ⟨vc.elems[i], by simp [Ref.deref, List.getElem?_eq_getElem hie]⟩
  · intro rm vc' h
    unfold VecCell.get_mut at h
    cases hbi : vc.borrows[i]? with
    | none => rw [hbi] at h; simp at h
    | some b =>
      rw [hbi] at h
      by_cases hb : b = BorrowState.none
      · simp only [hb, ne_eq, not_true_eq_false, if_false, if_neg,
          Prod.mk.injEq, Except.ok.injEq] at h
        obtain ⟨hr, hv⟩ := h
        subst hv
        have hib : i < vc.borrows.length := (List.getElem?_eq_some.1 hbi).1
        have hie : i < vc.elems.length := by omega
        refine ⟨?_, rfl, rfl, ?_⟩
        · rw [← hr]; exact hie
        · rw [← hr]
          exact ⟨vc.elems[i],
            by simp [RefMut.deref, List.getElem?_eq_getElem hie],
            by simp [RefMut.deref_mut, List.getElem?_eq_getElem hie]⟩
      · simp [if_pos hb] at h

theorem C9_witness :
    Ref.index ⟨0⟩ < (((VecCell.from_iter [4, 5] : VecCell Nat).get 0).2).elems.length
    ∧ ∃ x, Ref.deref ⟨0⟩ (((VecCell.from_iter [4, 5] : VecCell Nat).get 0).2) = some x := by
  have h := (C9_deref_in_bounds (VecCell.from_iter [4, 5] : VecCell Nat) 0 (by decide)).1
    ⟨0⟩ (((VecCell.from_iter [4, 5] : VecCell Nat).get 0).2) rfl
  exact ⟨h.1, h.2.2⟩

/-- C10: every freshly constructed container — `new`, `with_capacity`, or
`from_iter` — has both borrow counters zero and every borrow-table entry
`None`, and `from_iter` stores exactly the given elements in order. -/
theorem C10_fresh_containers {T : Type} (l : List T) (cap : Nat) :
    (VecCell.new : VecCell T).immutable_borrow_count = 0
    ∧ (VecCell.new : VecCell T).mutable_borrow_count = 0
    ∧ (VecCell.new : VecCell T).borrows = []
    ∧ (VecCell.new : VecCell T).elems = []
    ∧ (VecCell.with_capacity cap : VecCell T).immutable_borrow_count = 0
    ∧ (VecCell.with_capacity cap : VecCell T).mutable_borrow_count = 0
    ∧ (VecCell.with_capacity cap : VecCell T).borrows = []
    ∧ (VecCell.with_capacity cap : VecCell T).elems = []
    ∧ (VecCell.from_iter l).immutable_borrow_count = 0
    ∧ (VecCell.from_iter l).mutable_borrow_count = 0
    ∧ (VecCell.from_iter l).borrows = List.replicate l.length BorrowState.none
    ∧ (VecCell.from_iter l).elems = l :=
  ⟨rfl, rfl, rfl, rfl, rfl, rfl, rfl, rfl, rfl, rfl, rfl, rfl⟩

/-- C1 counterexample: on the container built from `[10, 20]`, take shared
guards on indices 0 and 1, then drop the guard on index 0 — the sole guard
for that index.  The drop decrements the global immutable counter from 2 to
1, which is nonzero, so index 0 is left `Immutable` and a subsequent
`get_mut 0` fails with `Aliasing` instead of being re-permitted, refuting the
claim at this concrete input. -/
theorem C1_counterexample :
    (VecCell.from_iter [10, 20] : VecCell Nat).get 0
      = (Except.ok ⟨0⟩,
         (⟨[10, 20], [BorrowState.immutable, BorrowState.none], 1, 0⟩ : VecCell Nat))
    ∧ (⟨[10, 20], [BorrowState.immutable, BorrowState.none], 1, 0⟩ : VecCell Nat).get 1
      = (Except.ok ⟨1⟩,
         (⟨[10, 20], [BorrowState.immutable, BorrowState.immutable], 2, 0⟩ : VecCell Nat))
    ∧ Ref.drop ⟨0⟩
        (⟨[10, 20], [BorrowState.immutable, BorrowState.immutable], 2, 0⟩ : VecCell Nat)
      = ⟨[10, 20], [BorrowState.immutable, BorrowState.immutable], 1, 0⟩
    ∧ ((⟨[10, 20], [BorrowState.immutable, BorrowState.immutable], 1, 0⟩ : VecCell Nat).get_mut 0).1
      = Except.error Error.aliasing :=
  ⟨rfl, rfl, rfl, rfl⟩

/-- C1 amended: dropping an exclusive guard always resets its index to `None`
and re-permits `get_mut` there.  Dropping a shared guard resets its index to
`None` — and re-permits `get_mut` — only when the decremented global
immutable counter is zero, i.e. when it was the sole outstanding shared guard
in the whole container; when the counter stays positive (for example because
a shared guard on a different index is still outstanding) the borrow table is
left entirely unchanged. -/
theorem C1_amended_release {T : Type} (vc : VecCell T) (r : Ref) (rm : RefMut)
    (hr : r.index < vc.borrows.length) (hrm : rm.index < vc.borrows.length) :
    (RefMut.drop rm vc).borrows[rm.index]? = some BorrowState.none
    ∧ ((RefMut.drop rm vc).get_mut rm.index).1 = Except.ok ⟨rm.index⟩
    ∧ (vc.immutable_borrow_count = 1 →
        (Ref.drop r vc).borrows[r.index]? = some BorrowState.none
        ∧ ((Ref.drop r vc).get_mut r.index).1 = Except.ok ⟨r.index⟩)
    ∧ (2 ≤ vc.immutable_borrow_count → (Ref.drop r vc).borrows = vc.borrows) := by
  have hmut : (RefMut.drop rm vc).borrows[rm.index]? = some BorrowState.none := by
    simp [RefMut.drop, List.getElem?_set_self, hrm]
  refine ⟨hmut, ?_, ?_, ?_⟩
  · unfold VecCell.get_mut
    rw [hmut]
    simp
  · intro h1
    have hset : (Ref.drop r vc).borrows[r.index]? = some BorrowState.none := by
      unfold Ref.drop
      rw [if_pos (by omega)]
      simp [List.getElem?_set_self, hr]
    refine ⟨hset, ?_⟩
    unfold VecCell.get_mut
    rw [hset]
    simp
  · intro h2
    unfold Ref.drop
    rw [if_neg (by omega)]

theorem C1_amended_witness :
    (Ref.drop ⟨0⟩ (⟨[1], [BorrowState.immutable], 1, 0⟩ : VecCell Nat)).borrows[Ref.index ⟨0⟩]?
        = some BorrowState.none
    ∧ ((Ref.drop ⟨0⟩ (⟨[1], [BorrowState.immutable], 1, 0⟩ : VecCell Nat)).get_mut
        (Ref.index ⟨0⟩)).1 = Except.ok ⟨Ref.index ⟨0⟩⟩ :=
  (C1_amended_release (⟨[1], [BorrowState.immutable], 1, 0⟩ : VecCell Nat) ⟨0⟩ ⟨0⟩
    (by decide) (by decide)).2.2.1 rfl

/-- C2 counterexample: on the container built from `[5]`, `get 0` succeeds
and, while that shared guard is still outstanding (the state records
`Immutable` at index 0 and an immutable count of 1), a second `get 0` also
succeeds, producing a second shared guard on the same index — refuting the
claim that no second shared guard on the same index can be obtained. -/
theorem C2_counterexample :
    (VecCell.from_iter [5] : VecCell Nat).get 0
      = (Except.ok ⟨0⟩, (⟨[5], [BorrowState.immutable], 1, 0⟩ : VecCell Nat))
    ∧ (⟨[5], [BorrowState.immutable], 1, 0⟩ : VecCell Nat).get 0
      = (Except.ok ⟨0⟩, (⟨[5], [BorrowState.immutable], 2, 0⟩ : VecCell Nat)) :=
  ⟨rfl, rfl⟩

/-- C2 amended: two outstanding shared borrows of the same index CAN coexist:
while an index's slot is `Immutable`, a further `get` on it succeeds,
leaves the slot `Immutable`, increments the global immutable counter, and
returns a second shared guard on the very same index; `get` only fails with
`Aliasing` when the slot is `Mutable`. -/
theorem C2_amended_stacked_shared {T : Type} (vc : VecCell T) (i : Nat)
    (h : vc.borrows[i]? = some BorrowState.immutable) :
    vc.get i =
      (Except.ok ⟨i⟩,
       { vc with
           borrows := vc.borrows.set i BorrowState.immutable
           immutable_borrow_count := vc.immutable_borrow_count + 1 }) := by
  unfold VecCell.get
  rw [h]
  simp

theorem C2_amended_witness :
    (⟨[5], [BorrowState.immutable], 1, 0⟩ : VecCell Nat).get 0
      = (Except.ok ⟨0⟩, (⟨[5], [BorrowState.immutable], 2, 0⟩ : VecCell Nat)) :=
  C2_amended_stacked_shared (⟨[5], [BorrowState.immutable], 1, 0⟩ : VecCell Nat) 0 (by decide)

end VecCellSpec
